import Mathlib

/-!
Verification of the Gumboard billing-webhook reconciliation and invite-redemption
logic, shallowly embedded from the TypeScript source.

Sources embedded:
* `src/app/api/webhooks/stripe/route.ts` — webhook `POST`, `mapStripeStatus`,
  `getSubscriptionIdFromInvoice`
* `src/app/setup/organization/page.tsx` — `joinOrganization`,
  `autoCreateAccountAndJoin`
* `src/app/api/organization/invite/route.ts` — per-email invite `POST`
* checkout endpoint (`src/unnamed/part_001`) — checkout `POST`
* `prisma/migrations/20250819235447_add_plans/migration.sql` — the
  `webhook_events` dedup table

JavaScript `Date`/`number` values are embedded as `Int`/`Nat`; nullable columns
as `Option`; JS truthiness of an optional string (`undefined`, `null` and `""`
are falsy) is the `strTruthy` predicate below.  Database transactions are
all-or-nothing: each server action returns `Except String DB`, and an error
leaves the database unchanged (rollback).  Concurrent transactions are modelled
by their serialization: the store runs the invite transactions at an isolation
level preventing lost updates, so every concurrent history is equivalent to
some serial order of the same transactions.
-/

namespace Gumboard

/-- JS truthiness of a `string | null | undefined` value: `null`, `undefined`
and the empty string are falsy. -/
def strTruthy : Option String → Bool
  | some s => !(s == "")
  | none => false

/-- `z.string().min(1)` on an optional field: present and nonempty. -/
def zodNonempty : Option String → Bool
  | some s => decide (1 ≤ s.length)
  | none => false

/-- Prisma `SubscriptionStatus` enum (values used by the webhook route). -/
inductive SubscriptionStatus where
  | ACTIVE | CANCELED | INCOMPLETE | INCOMPLETE_EXPIRED
  | PAST_DUE | TRIALING | UNPAID | INACTIVE
  deriving DecidableEq, Repr

/-- `mapStripeStatus` from `src/app/api/webhooks/stripe/route.ts` (lines
255–274): exhaustive switch on the provider status string with a default arm
returning `INACTIVE`. -/
def mapStripeStatus (status : String) : SubscriptionStatus :=
  match status with
  | "active" => .ACTIVE
  | "canceled" => .CANCELED
  | "incomplete" => .INCOMPLETE
  | "incomplete_expired" => .INCOMPLETE_EXPIRED
  | "past_due" => .PAST_DUE
  | "trialing" => .TRIALING
  | "unpaid" => .UNPAID
  | _ => .INACTIVE

/-- `Organization` row: billing fields touched by the reconciliation flow plus
a representative non-billing field (`name`). -/
structure Organization where
  id : String
  name : String
  stripeCustomerId : Option String
  stripeSubscriptionId : Option String
  stripeCurrentPeriodEnd : Option Int
  subscriptionStatus : SubscriptionStatus
  planId : Option String
  deriving DecidableEq, Repr

/-- A Stripe subscription object as the webhook route reads it: id, customer,
status string, the `metadata` fields, and `items.data[*].current_period_end`. -/
structure StripeSubscription where
  id : String
  customer : String
  status : String
  metaOrganizationId : Option String
  metaUserId : Option String
  metaPlanId : Option String
  itemsPeriodEnds : List Int
  deriving DecidableEq, Repr

/-- A Stripe checkout session as the route reads it: `metadata` plus the
`subscription` reference. -/
structure CheckoutSession where
  metaOrganizationId : Option String
  metaUserId : Option String
  metaPlanId : Option String
  subscription : Option String
  deriving DecidableEq, Repr

/-- A Stripe invoice as `getSubscriptionIdFromInvoice` reads it:
`lines.data[*].subscription`, `billing_reason`, `customer`. -/
structure StripeInvoice where
  lineSubscriptions : List (Option String)
  billingReason : String
  customer : Option String
  deriving DecidableEq, Repr

/-- The Stripe side used by outbound calls: `subscriptions.retrieve` finds by
id, `subscriptions.list` filters by customer (most recent first, as Stripe
returns them). -/
structure StripeWorld where
  subs : List StripeSubscription
  deriving Repr

def StripeWorld.retrieve (w : StripeWorld) (id : String) : Option StripeSubscription :=
  w.subs.find? (fun s => s.id == id)

def StripeWorld.listByCustomer (w : StripeWorld) (customer : String) : List StripeSubscription :=
  w.subs.filter (fun s => s.customer == customer)

/-- Webhook event envelope; the relevance filter keeps exactly the six listed
kinds, everything else is `otherEvent`. -/
inductive StripeEventData where
  | checkoutCompleted (session : CheckoutSession)
  | subCreated (sub : StripeSubscription)
  | subUpdated (sub : StripeSubscription)
  | subDeleted (sub : StripeSubscription)
  | invoicePaymentSucceeded (inv : StripeInvoice)
  | invoicePaymentFailed (inv : StripeInvoice)
  | otherEvent (eventType : String)
  deriving DecidableEq, Repr

structure StripeEvent where
  eventId : String
  data : StripeEventData
  deriving DecidableEq, Repr

/-- A webhook request: raw body summarized as the event it parses to, plus
whether the `stripe-signature` header is present and verifies against the
shared secret (`stripe.webhooks.constructEvent` succeeds). -/
structure WebhookRequest where
  event : StripeEvent
  signatureValid : Bool
  deriving DecidableEq, Repr

/-- HTTP response of the webhook route: `received` is the 200
`{received: true}` acknowledgment; `error` carries the HTTP status. -/
inductive WebhookResponse where
  | received
  | error (status : Nat) (msg : String)
  deriving DecidableEq, Repr

def WebhookResponse.httpStatus : WebhookResponse → Nat
  | .received => 200
  | .error s _ => s

/-- Database state seen by the webhook route: the `organizations` table and the
`webhook_events` dedup table (created by migration `20250819235447_add_plans`
with a unique index on `stripeEventId`). -/
structure BillingDB where
  orgs : List Organization
  webhookEvents : List String
  deriving DecidableEq, Repr

/-- Prisma `organization.update({where: {id}})`: `none` when no row matches
(the call throws `P2025`). -/
def updateOrg (db : BillingDB) (orgId : String) (f : Organization → Organization) :
    Option BillingDB :=
  if (db.orgs.find? (fun o => o.id == orgId)).isSome then
    some { db with orgs := db.orgs.map (fun o => if o.id == orgId then f o else o) }
  else
    none

/-- `getSubscriptionIdFromInvoice` (route lines 277–318): first line item with
a subscription; else, for `subscription_create`/`subscription_cycle` invoices,
the most recent subscription of the invoice's customer. -/
def getSubscriptionIdFromInvoice (w : StripeWorld) (inv : StripeInvoice) : Option String :=
  match inv.lineSubscriptions.find? Option.isSome with
  | some sub => sub
  | none =>
    if inv.billingReason == "subscription_create" || inv.billingReason == "subscription_cycle" then
      match inv.customer with
      | none => none
      | some customerId =>
        match (w.listByCustomer customerId).head? with
        | some s => some s.id
        | none => none
    else
      none

/-- `checkoutMetadataSchema.safeParse` (route lines 20–24): `organizationId`,
`userId` and `planId` all required nonempty. -/
def checkoutMetadataValid (s : CheckoutSession) : Bool :=
  zodNonempty s.metaOrganizationId && zodNonempty s.metaUserId && zodNonempty s.metaPlanId

/-- `subscriptionMetadataSchema.safeParse` (route lines 26–30):
`organizationId` required nonempty; `userId` and `planId` optional. -/
def subscriptionMetadataValid (sub : StripeSubscription) : Bool :=
  zodNonempty sub.metaOrganizationId

/-- Shared body of the `customer.subscription.created` / `.updated` arms
(route lines 105–145). -/
def applySubCreatedOrUpdated (sub : StripeSubscription) (db : BillingDB) :
    WebhookResponse × BillingDB :=
  if !subscriptionMetadataValid sub then
    (.error 400 "Invalid subscription metadata", db)
  else
    match sub.itemsPeriodEnds.head? with
    | none => (.error 400 "No subscription items found", db)
    | some periodEnd =>
      match updateOrg db (sub.metaOrganizationId.getD "") (fun o =>
          { o with
            stripeSubscriptionId := some sub.id
            stripeCurrentPeriodEnd := some (periodEnd * 1000)
            subscriptionStatus := mapStripeStatus sub.status
            planId := if strTruthy sub.metaPlanId then sub.metaPlanId else o.planId }) with
      | none => (.error 500 "Webhook handler failed", db)
      | some db' => (.received, db')

/-- The webhook `POST` handler (`src/app/api/webhooks/stripe/route.ts`,
lines 32–253).  Returns the HTTP response and the database after the request.
Inside the `invoice.*` arms the inner `try`/`catch` swallows errors from the
subscription retrieval and the organization update, so those paths acknowledge
with `{received: true}` even when nothing was written. -/
def webhookPOST (w : StripeWorld) (req : WebhookRequest) (db : BillingDB) :
    WebhookResponse × BillingDB :=
  if !req.signatureValid then
    (.error 400 "Webhook Error: signature verification failed", db)
  else
    match req.event.data with
    | .otherEvent _ => (.received, db)
    | .checkoutCompleted session =>
      if !checkoutMetadataValid session then
        (.error 400 "Invalid session metadata", db)
      else
        match session.subscription with
        | none => (.error 500 "Webhook handler failed", db)
        | some subscriptionId =>
          match w.retrieve subscriptionId with
          | none => (.error 500 "Webhook handler failed", db)
          | some sub =>
            match sub.itemsPeriodEnds.head? with
            | none => (.error 400 "No subscription items found", db)
            | some periodEnd =>
              match updateOrg db (session.metaOrganizationId.getD "") (fun o =>
                  { o with
                    stripeCustomerId := some sub.customer
                    stripeSubscriptionId := some sub.id
                    stripeCurrentPeriodEnd := some (periodEnd * 1000)
                    subscriptionStatus := mapStripeStatus sub.status
                    planId := session.metaPlanId }) with
              | none => (.error 500 "Webhook handler failed", db)
              | some db' => (.received, db')
    | .subCreated sub => applySubCreatedOrUpdated sub db
    | .subUpdated sub => applySubCreatedOrUpdated sub db
    | .subDeleted sub =>
      if !strTruthy sub.metaOrganizationId then
        (.error 400 "Missing organizationId", db)
      else
        match updateOrg db (sub.metaOrganizationId.getD "") (fun o =>
            { o with
              stripeSubscriptionId := none
              stripeCurrentPeriodEnd := none
              subscriptionStatus := .INACTIVE
              planId := none }) with
        | none => (.error 500 "Webhook handler failed", db)
        | some db' => (.received, db')
    | .invoicePaymentSucceeded inv =>
      match getSubscriptionIdFromInvoice w inv with
      | none => (.received, db)
      | some subscriptionId =>
        if inv.billingReason == "subscription_cycle" then
          match w.retrieve subscriptionId with
          | none => (.received, db)
          | some sub =>
            if strTruthy sub.metaOrganizationId then
              match sub.itemsPeriodEnds.head? with
              | none => (.received, db)
              | some periodEnd =>
                match updateOrg db (sub.metaOrganizationId.getD "") (fun o =>
                    { o with
                      stripeCurrentPeriodEnd := some (periodEnd * 1000)
                      subscriptionStatus := .ACTIVE }) with
                | none => (.received, db)
                | some db' => (.received, db')
            else
              (.received, db)
        else
          (.received, db)
    | .invoicePaymentFailed inv =>
      match getSubscriptionIdFromInvoice w inv with
      | none => (.received, db)
      | some subscriptionId =>
        match w.retrieve subscriptionId with
        | none => (.received, db)
        | some sub =>
          if strTruthy sub.metaOrganizationId then
            match updateOrg db (sub.metaOrganizationId.getD "") (fun o =>
                { o with subscriptionStatus := .PAST_DUE }) with
            | none => (.received, db)
            | some db' => (.received, db')
          else
            (.received, db)

/-! ## Invite redemption and related endpoints -/

/-- JS truthiness of a `number | null` value: `null` and `0` are falsy. -/
def natTruthy : Option Nat → Bool
  | some n => !(n == 0)
  | none => false

/-- Modelled from the spec: `FREE_PLAN_MEMBER_LIMIT` is imported from
`@/lib/constants`, a file not present in the sources; the spec fixes the
free-tier member cap at 3 ("total would be 4 > cap of 3"). -/
def FREE_PLAN_MEMBER_LIMIT : Nat := 3

/-- `Plan` catalog row. -/
structure Plan where
  id : String
  name : String
  stripePriceId : Option String
  deriving DecidableEq, Repr

/-- `User` row: at most one organization (`organizationId` nullable). -/
structure User where
  id : String
  email : String
  emailVerified : Bool
  organizationId : Option String
  isAdmin : Bool
  deriving DecidableEq, Repr

inductive InviteStatus where
  | PENDING | ACCEPTED
  deriving DecidableEq, Repr

/-- `OrganizationInvite` row, keyed by `(email, organizationId)`. -/
structure OrganizationInvite where
  email : String
  organizationId : String
  invitedBy : String
  status : InviteStatus
  deriving DecidableEq, Repr

/-- `OrganizationSelfServeInvite` row. -/
structure SelfServeInvite where
  token : String
  organizationId : String
  isActive : Bool
  expiresAt : Option Int
  usageLimit : Option Nat
  usageCount : Nat
  deriving DecidableEq, Repr

/-- Application database state shared by the invite flows and the checkout
endpoint. -/
structure AppDB where
  orgs : List Organization
  plans : List Plan
  users : List User
  orgInvites : List OrganizationInvite
  selfInvites : List SelfServeInvite
  deriving DecidableEq, Repr

def findSelfInvite (db : AppDB) (token : String) : Option SelfServeInvite :=
  db.selfInvites.find? (fun i => i.token == token)

def findOrg (db : AppDB) (orgId : String) : Option Organization :=
  db.orgs.find? (fun o => o.id == orgId)

def findUserById (db : AppDB) (userId : String) : Option User :=
  db.users.find? (fun u => u.id == userId)

def findUserByEmail (db : AppDB) (email : String) : Option User :=
  db.users.find? (fun u => u.email == email)

/-- `invite.organization.plan` relation: `null` when `planId` is `null` (or
dangling). -/
def orgPlan (db : AppDB) (org : Organization) : Option Plan :=
  match org.planId with
  | none => none
  | some pid => db.plans.find? (fun p => p.id == pid)

/-- `organization.members.length`. -/
def activeMembers (db : AppDB) (orgId : String) : Nat :=
  (db.users.filter (fun u => u.organizationId == some orgId)).length

/-- `organization.invites({status: PENDING}).length`. -/
def pendingInvites (db : AppDB) (orgId : String) : Nat :=
  (db.orgInvites.filter (fun i => i.organizationId == orgId && i.status == .PENDING)).length

/-- The free-plan capacity error message shared by the three call sites (the
source template also interpolates the current member and pending-invite
counts into the text; those are elided here, the claims only distinguish the
message from the other error messages). -/
def freePlanLimitMsg : String :=
  "Free plan is limited to 3 members total. Upgrade to Team plan for unlimited members."

/-- The free-plan capacity guard shared by `joinOrganization`,
`autoCreateAccountAndJoin` and the invite route: fires when the organization
has no plan and `members + pending + 1` exceeds the cap. -/
def freePlanCapacityExceeded (db : AppDB) (org : Organization) : Bool :=
  (orgPlan db org).isNone &&
    decide (activeMembers db org.id + pendingInvites db org.id + 1 > FREE_PLAN_MEMBER_LIMIT)

/-- `tx.organizationSelfServeInvite.update({where: {token}, data:
{usageCount: {increment: 1}}})`. -/
def bumpUsage (db : AppDB) (token : String) : AppDB :=
  { db with selfInvites := db.selfInvites.map (fun i =>
      if i.token == token then { i with usageCount := i.usageCount + 1 } else i) }

/-- `tx.user.update({where: {id}, data: {organizationId}})`. -/
def setUserOrg (db : AppDB) (userId orgId : String) : AppDB :=
  { db with users := db.users.map (fun u =>
      if u.id == userId then { u with organizationId := some orgId } else u) }

/-- `joinOrganization` server action (`src/app/setup/organization/page.tsx`,
lines 88–182), the body of its `db.$transaction`: an `Except.error` result is
a thrown error, and the transaction rolls back (caller's database is
unchanged).  The token's row is unique (`token` is the Prisma `@unique` key),
so the row returned by the increment inside the same serialized transaction is
the found row with `usageCount + 1`. -/
def joinOrganization (db : AppDB) (now : Int) (userId token : String) :
    Except String AppDB :=
  match findSelfInvite db token with
  | none => .error "Invalid or expired invitation link"
  | some invite =>
    if !invite.isActive then
      .error "This invitation link has been deactivated"
    else if (match invite.expiresAt with | some e => decide (e < now) | none => false) then
      .error "This invitation link has expired"
    else if natTruthy invite.usageLimit &&
        decide (invite.usageCount ≥ invite.usageLimit.getD 0) then
      .error "This invitation link has reached its usage limit"
    else
      match findOrg db invite.organizationId with
      | none => .error "Internal error"
      | some org =>
        if freePlanCapacityExceeded db org then
          .error freePlanLimitMsg
        else
          match findUserById db userId with
          | some user =>
            if user.organizationId == some invite.organizationId then
              .error "You are already a member of this organization"
            else if strTruthy user.organizationId then
              .error "You are already a member of another organization. Please leave your current organization first."
            else
              if natTruthy invite.usageLimit &&
                  decide (invite.usageCount + 1 > invite.usageLimit.getD 0) then
                .error "This invitation link has reached its usage limit"
              else
                .ok (setUserOrg (bumpUsage db token) userId invite.organizationId)
          | none =>
            if natTruthy invite.usageLimit &&
                decide (invite.usageCount + 1 > invite.usageLimit.getD 0) then
              .error "This invitation link has reached its usage limit"
            else
              .error "Record not found"

/-- `autoCreateAccountAndJoin` server action (`src/app/setup/organization/page.tsx`,
lines 184–297), the body of its `db.$transaction`.  `newUserId` stands for the
id Prisma generates for `tx.user.create`. -/
def autoCreateAccountAndJoin (db : AppDB) (now : Int) (token email newUserId : String) :
    Except String AppDB :=
  match findSelfInvite db token with
  | none => .error "Invalid or inactive invitation link"
  | some invite =>
    if !invite.isActive then
      .error "Invalid or inactive invitation link"
    else if (match invite.expiresAt with | some e => decide (e < now) | none => false) then
      .error "This invitation link has expired"
    else if natTruthy invite.usageLimit &&
        decide (invite.usageCount ≥ invite.usageLimit.getD 0) then
      .error "This invitation link has reached its usage limit"
    else
      match findOrg db invite.organizationId with
      | none => .error "Internal error"
      | some org =>
        if freePlanCapacityExceeded db org then
          .error freePlanLimitMsg
        else
          match findUserByEmail db email with
          | none =>
            if natTruthy invite.usageLimit &&
                decide (invite.usageCount + 1 > invite.usageLimit.getD 0) then
              .error "This invitation link has reached its usage limit"
            else
              let db1 := bumpUsage db token
              .ok { db1 with users := db1.users ++
                [{ id := newUserId, email := email, emailVerified := true,
                   organizationId := some invite.organizationId, isAdmin := false }] }
          | some user =>
            if !strTruthy user.organizationId then
              if natTruthy invite.usageLimit &&
                  decide (invite.usageCount + 1 > invite.usageLimit.getD 0) then
                .error "This invitation link has reached its usage limit"
              else
                let db1 := bumpUsage db token
                .ok { db1 with users := db1.users.map (fun u =>
                    if u.id == user.id then
                      { u with organizationId := some invite.organizationId,
                               emailVerified := true }
                    else u) }
            else if user.organizationId == some invite.organizationId then
              .ok db
            else
              .error "You are already a member of another organization"

/-- HTTP outcome of a JSON route handler. -/
inductive HttpResult where
  | success (status : Nat)
  | failure (status : Nat) (msg : String)
  deriving DecidableEq, Repr

/-- `organizationInvite.upsert` keyed by `(email, organizationId)`. -/
def upsertOrgInvite (db : AppDB) (email orgId invitedBy : String) : AppDB :=
  if (db.orgInvites.find? (fun i => i.email == email && i.organizationId == orgId)).isSome then
    { db with orgInvites := db.orgInvites.map (fun i =>
        if i.email == email && i.organizationId == orgId then
          { i with status := .PENDING }
        else i) }
  else
    { db with orgInvites := db.orgInvites ++
        [{ email := email, organizationId := orgId, invitedBy := invitedBy,
           status := .PENDING }] }

/-- `existingUser?.organizationId === user.organizationId` in the invite
route: JS strict equality, `false` when the looked-up user is absent. -/
def existingUserSameOrg (db : AppDB) (cleanEmail : String)
    (actorOrgId : Option String) : Bool :=
  match findUserByEmail db cleanEmail with
  | some eu => eu.organizationId == actorOrgId
  | none => false

/-- `existingInvite?.status === "PENDING"` in the invite route. -/
def existingInvitePending (db : AppDB) (cleanEmail orgId : String) : Bool :=
  match db.orgInvites.find? (fun i =>
      i.email == cleanEmail && i.organizationId == orgId) with
  | some inv => inv.status == InviteStatus.PENDING
  | none => false

/-- Per-email invite `POST` (`src/app/api/organization/invite/route.ts`,
lines 13–140), after authentication and the zod email validation (`actorId` is
the session user, `cleanEmail` the trimmed lowercased address). -/
def invitePOST (db : AppDB) (actorId cleanEmail : String) : HttpResult × AppDB :=
  match findUserById db actorId with
  | none => (.failure 404 "No organization found", db)
  | some user =>
    if !strTruthy user.organizationId then
      (.failure 404 "No organization found", db)
    else
      match findOrg db (user.organizationId.getD "") with
      | none => (.failure 404 "No organization found", db)
      | some org =>
        if !user.isAdmin then
          (.failure 403 "Only admins can invite new members", db)
        else if freePlanCapacityExceeded db org then
          (.failure 400 freePlanLimitMsg, db)
        else if existingUserSameOrg db cleanEmail user.organizationId then
          (.failure 400 "User is already a member of this organization", db)
        else if existingInvitePending db cleanEmail org.id then
          (.failure 400 "Invite already sent to this email", db)
        else
          (.success 201, upsertOrgInvite db cleanEmail org.id actorId)

/-- Checkout-session `POST` (checkout endpoint), after authentication and the
zod body validation.  It only reads the database; success stands for the
redirect-URL response from `createCheckoutSession`. -/
def checkoutPOST (db : AppDB) (actorId planId : String) : HttpResult :=
  match db.plans.find? (fun p => p.id == planId) with
  | none => .failure 404 "Plan not found"
  | some plan =>
    if !strTruthy plan.stripePriceId then
      .failure 400 "Plan is not configured for payments"
    else
      match findUserById db actorId with
      | none => .failure 404 "No organization found"
      | some user =>
        if !strTruthy user.organizationId then
          .failure 404 "No organization found"
        else
          match findOrg db (user.organizationId.getD "") with
          | none => .failure 404 "No organization found"
          | some org =>
            if !user.isAdmin then
              .failure 403 "Only admins can manage billing"
            else if strTruthy org.stripeCustomerId && strTruthy org.stripeSubscriptionId then
              .failure 400 "Organization already has an active subscription. Use billing portal to change plans."
            else
              .success 200

/-! ### Serialized histories of redemption transactions

The store runs the two redemption transactions at an isolation level that
prevents lost updates on the counter, so any concurrent history is equivalent
to a serial order of the same transactions; a history is that serial order. -/

inductive RedemptionAttempt where
  | authJoin (now : Int) (userId token : String)
  | anonJoin (now : Int) (token email newUserId : String)
  deriving DecidableEq, Repr

/-- Effect of one redemption transaction on the store: a thrown error rolls
the transaction back. -/
def applyAttempt (db : AppDB) : RedemptionAttempt → AppDB
  | .authJoin now userId token =>
    match joinOrganization db now userId token with
    | .ok db' => db'
    | .error _ => db
  | .anonJoin now token email newUserId =>
    match autoCreateAccountAndJoin db now token email newUserId with
    | .ok db' => db'
    | .error _ => db

def runAttempts (db : AppDB) : List RedemptionAttempt → AppDB
  | [] => db
  | a :: rest => runAttempts (applyAttempt db a) rest

/-- `usageCount` of the token's row (0 when absent). -/
def tokenUsageCount (db : AppDB) (token : String) : Nat :=
  match findSelfInvite db token with
  | some i => i.usageCount
  | none => 0

/-- Number of attempts in a history whose transaction committed an increment
of the token's `usageCount` — the member-attaching successful redemptions of
that token. -/
def incSuccessCount (db : AppDB) (token : String) : List RedemptionAttempt → Nat
  | [] => 0
  | a :: rest =>
    (if tokenUsageCount (applyAttempt db a) token = tokenUsageCount db token + 1
      then 1 else 0) + incSuccessCount (applyAttempt db a) token rest

/-! ## Concrete fixtures used in theorems -/

/-- A subscription object with no `organizationId` in its metadata. -/
def subNoOrgMeta : StripeSubscription :=
  { id := "sub_1", customer := "cus_1", status := "canceled",
    metaOrganizationId := none, metaUserId := none, metaPlanId := none,
    itemsPeriodEnds := [5] }

/-- The field update the `customer.subscription.deleted` arm performs
(abbreviation used in theorem statements). -/
def clearBilling (o : Organization) : Organization :=
  { o with stripeSubscriptionId := none, stripeCurrentPeriodEnd := none,
           subscriptionStatus := .INACTIVE, planId := none }

/-- A subscription for organization `"org1"` with plan metadata. -/
def subOrg1 : StripeSubscription :=
  { id := "sub_1", customer := "cus_1", status := "active",
    metaOrganizationId := some "org1", metaUserId := none,
    metaPlanId := some "plan_team", itemsPeriodEnds := [7] }

/-- An organization row before any billing event. -/
def org1Free : Organization :=
  { id := "org1", name := "Acme", stripeCustomerId := none,
    stripeSubscriptionId := none, stripeCurrentPeriodEnd := none,
    subscriptionStatus := .INACTIVE, planId := none }

/-- The subscription-updated event with provider event id `"evt_1"`. -/
def reqUpdatedEvt1 : WebhookRequest :=
  { event := { eventId := "evt_1", data := .subUpdated subOrg1 }, signatureValid := true }

/-- A later subscription-deleted event with a fresh event id. -/
def reqDeletedEvt2 : WebhookRequest :=
  { event := { eventId := "evt_2", data := .subDeleted subOrg1 }, signatureValid := true }

/-- A `subscription_cycle` renewal invoice whose line items reference
`"sub_1"`. -/
def invCycleSub1 : StripeInvoice :=
  { lineSubscriptions := [some "sub_1"], billingReason := "subscription_cycle",
    customer := some "cus_1" }

deriving instance DecidableEq for Except

/-- A token that is both deactivated and expired, with plenty of usage left. -/
def inviteExpiredInactive : SelfServeInvite :=
  { token := "tok", organizationId := "org1", isActive := false,
    expiresAt := some (-1), usageLimit := some 10, usageCount := 0 }

/-- A user who is already a member of `"org1"`. -/
def memberU1 : User :=
  { id := "u1", email := "u1@example.com", emailVerified := true,
    organizationId := some "org1", isAdmin := false }

/-- A healthy self-serve invite token for `"org1"`. -/
def inviteOrg1 : SelfServeInvite :=
  { token := "tok", organizationId := "org1", isActive := true,
    expiresAt := none, usageLimit := none, usageCount := 0 }

/-- A token with `usageLimit` set to `0` — falsy in JavaScript. -/
def inviteLimit0 : SelfServeInvite :=
  { token := "tok", organizationId := "org1", isActive := true,
    expiresAt := none, usageLimit := some 0, usageCount := 0 }

/-! ## Helper lemmas -/

theorem strTruthy_some_ne {s : String} (h : s ≠ "") : strTruthy (some s) = true := by
  simp [strTruthy, h]

theorem strTruthy_none : strTruthy none = false := rfl

/-- `find?` commutes with a map that does not change the predicate's value. -/
theorem find?_map_pres {α : Type} (g : α → α) (p : α → Bool)
    (hg : ∀ x, p (g x) = p x) :
    ∀ l : List α, (l.map g).find? p = (l.find? p).map g := by
  intro l
  induction l with
  | nil => rfl
  | cons a t ih =>
    by_cases h : p a = true
    · rw [List.map_cons, List.find?_cons_of_pos _ (by rw [hg]; exact h),
        List.find?_cons_of_pos _ h]
      rfl
    · have h' : p a = false := by simpa using h
      rw [List.map_cons, List.find?_cons_of_neg _ (by rw [hg, h']; simp),
        List.find?_cons_of_neg _ (by simp [h']), ih]

theorem findSelfInvite_bumpUsage (db : AppDB) (t tok : String) :
    findSelfInvite (bumpUsage db t) tok =
      (findSelfInvite db tok).map (fun i =>
        if i.token == t then { i with usageCount := i.usageCount + 1 } else i) := by
  unfold findSelfInvite bumpUsage
  exact find?_map_pres _ _ (fun x => by
    by_cases hx : (x.token == t) = true <;> simp [hx]) db.selfInvites

theorem findSelfInvite_setUserOrg (db : AppDB) (userId orgId tok : String) :
    findSelfInvite (setUserOrg db userId orgId) tok = findSelfInvite db tok := rfl

/-- The successful-reservation shape shared by the redemption transactions:
when the pre-check passed for the updated token `t`, the store after the
increment still holds the observed token `tok` with the same limit, and its
count either did not change (`tok ≠ t`) or rose by one from strictly below
the limit. -/
theorem bump_case (db : AppDB) (t tok : String) (i inv : SelfServeInvite) (l : Nat)
    (hf : findSelfInvite db tok = some i) (hl : i.usageLimit = some l) (hl1 : 1 ≤ l)
    (hft : findSelfInvite db t = some inv)
    (hpre : (natTruthy inv.usageLimit &&
      decide (inv.usageCount ≥ inv.usageLimit.getD 0)) = false) :
    ∃ i', findSelfInvite (bumpUsage db t) tok = some i' ∧ i'.usageLimit = some l ∧
      (i'.usageCount = i.usageCount ∨
        (i'.usageCount = i.usageCount + 1 ∧ i.usageCount < l)) := by
  rw [findSelfInvite_bumpUsage, hf]
  by_cases hit : (i.token == t) = true
  · have htok : i.token = tok := by simpa using List.find?_some hf
    have ht : t = tok := by
      have : i.token = t := by simpa using hit
      rw [← this, htok]
    have hinv : inv = i := by
      rw [ht] at hft; rw [hft] at hf; exact Option.some.inj hf
    have hne0 : (l == 0) = false := by
      have : l ≠ 0 := by omega
      simpa using this
    have hlt : i.usageCount < l := by
      rw [hinv, hl] at hpre
      simp only [natTruthy, hne0, Bool.not_false, Bool.true_and, Option.getD_some,
        decide_eq_false_iff_not, not_le] at hpre
      exact hpre
    have hit2 : i.token = t := by simpa using hit
    exact ⟨{ i with usageCount := i.usageCount + 1 }, by simp [hit2], by simp [hl],
      Or.inr ⟨rfl, hlt⟩⟩
  · have hit2 : ¬i.token = t := by simpa using hit
    exact ⟨i, by simp [hit2], hl, Or.inl rfl⟩

/-- One serialized redemption transaction against a token whose limit is a
positive `l`: the token row survives with the same limit, and its count stays
or rises by one from strictly below `l`. -/
theorem applyAttempt_usage (db : AppDB) (a : RedemptionAttempt) (tok : String)
    (i : SelfServeInvite) (l : Nat)
    (hf : findSelfInvite db tok = some i) (hl : i.usageLimit = some l) (hl1 : 1 ≤ l) :
    ∃ i', findSelfInvite (applyAttempt db a) tok = some i' ∧ i'.usageLimit = some l ∧
      (i'.usageCount = i.usageCount ∨
        (i'.usageCount = i.usageCount + 1 ∧ i.usageCount < l)) := by
  cases a with
  | authJoin now userId t =>
    cases hres : joinOrganization db now userId t with
    | error e =>
      have happ : applyAttempt db (.authJoin now userId t) = db := by
        simp [applyAttempt, hres]
      rw [happ]; exact ⟨i, hf, hl, Or.inl rfl⟩
    | ok db' =>
      have happ : applyAttempt db (.authJoin now userId t) = db' := by
        simp [applyAttempt, hres]
      rw [happ]
      unfold joinOrganization at hres
      cases hft : findSelfInvite db t with
      | none => rw [hft] at hres; exact Except.noConfusion hres
      | some inv =>
        simp only [hft] at hres
        repeat' split at hres
        all_goals try exact Except.noConfusion hres
        all_goals rw [← Except.ok.inj hres]
        all_goals exact bump_case db t tok i inv l hf hl hl1 hft (by simp_all)
  | anonJoin now t email newUserId =>
    cases hres : autoCreateAccountAndJoin db now t email newUserId with
    | error e =>
      have happ : applyAttempt db (.anonJoin now t email newUserId) = db := by
        simp [applyAttempt, hres]
      rw [happ]; exact ⟨i, hf, hl, Or.inl rfl⟩
    | ok db' =>
      have happ : applyAttempt db (.anonJoin now t email newUserId) = db' := by
        simp [applyAttempt, hres]
      rw [happ]
      unfold autoCreateAccountAndJoin at hres
      cases hft : findSelfInvite db t with
      | none => rw [hft] at hres; exact Except.noConfusion hres
      | some inv =>
        simp only [hft] at hres
        repeat' split at hres
        all_goals try exact Except.noConfusion hres
        all_goals rw [← Except.ok.inj hres]
        all_goals first
          | exact ⟨i, hf, hl, Or.inl rfl⟩
          | exact bump_case db t tok i inv l hf hl hl1 hft (by simp_all)

/-! ## C7: provider-status mapping is total with an inactive default -/

/-- C7.  `mapStripeStatus` maps each of the seven recognized provider status
values to the corresponding internal enum value, and every other input to the
default `INACTIVE` — it is a total function and never fails. -/
theorem mapStripeStatus_total_default :
    mapStripeStatus "active" = SubscriptionStatus.ACTIVE ∧
    mapStripeStatus "canceled" = SubscriptionStatus.CANCELED ∧
    mapStripeStatus "incomplete" = SubscriptionStatus.INCOMPLETE ∧
    mapStripeStatus "incomplete_expired" = SubscriptionStatus.INCOMPLETE_EXPIRED ∧
    mapStripeStatus "past_due" = SubscriptionStatus.PAST_DUE ∧
    mapStripeStatus "trialing" = SubscriptionStatus.TRIALING ∧
    mapStripeStatus "unpaid" = SubscriptionStatus.UNPAID ∧
    ∀ s : String,
      s ∉ (["active", "canceled", "incomplete", "incomplete_expired",
            "past_due", "trialing", "unpaid"] : List String) →
      mapStripeStatus s = SubscriptionStatus.INACTIVE := by
  refine ⟨rfl, rfl, rfl, rfl, rfl, rfl, rfl, ?_⟩
  intro s hs
  simp only [List.mem_cons, List.not_mem_nil, or_false, not_or] at hs
  obtain ⟨h1, h2, h3, h4, h5, h6, h7⟩ := hs
  unfold mapStripeStatus
  split <;> simp_all

/-- Witness for C7: the unrecognized status `"paused"` maps to `INACTIVE`. -/
theorem mapStripeStatus_total_default_witness :
    mapStripeStatus "paused" = SubscriptionStatus.INACTIVE :=
  mapStripeStatus_total_default.2.2.2.2.2.2.2 "paused" (by decide)

/-! ## C6: deleted event with missing organizationId -/

/-- C6 counterexample: a validly signed `customer.subscription.deleted` event
whose metadata lacks `organizationId` is answered with HTTP 400 — a
client-error response, not a 5xx-class server error. -/
theorem deleted_missing_org_400_counterexample :
    (webhookPOST ⟨[]⟩ ⟨⟨"evt_1", .subDeleted subNoOrgMeta⟩, true⟩ ⟨[], []⟩).1.httpStatus = 400 ∧
    ¬(500 ≤ (webhookPOST ⟨[]⟩ ⟨⟨"evt_1", .subDeleted subNoOrgMeta⟩, true⟩
        ⟨[], []⟩).1.httpStatus) := by
  decide

/-- C6 amended: for every `customer.subscription.deleted` event whose metadata
organizationId is missing (or empty), the handler reports the failure as a 400
client-error response `{error: "Missing organizationId"}` — the class of
response that does not trigger the provider's redelivery — and leaves the
database unchanged. -/
theorem deleted_missing_org_amended (w : StripeWorld) (db : BillingDB) (eid : String)
    (sub : StripeSubscription) (h : strTruthy sub.metaOrganizationId = false) :
    webhookPOST w ⟨⟨eid, .subDeleted sub⟩, true⟩ db =
      (.error 400 "Missing organizationId", db) := by
  simp [webhookPOST, h]

/-- Witness for C6 amended, at the concrete no-metadata subscription. -/
theorem deleted_missing_org_amended_witness :
    webhookPOST ⟨[]⟩ ⟨⟨"evt_1", .subDeleted subNoOrgMeta⟩, true⟩ ⟨[], []⟩ =
      (.error 400 "Missing organizationId", ⟨[], []⟩) :=
  deleted_missing_org_amended ⟨[]⟩ ⟨[], []⟩ "evt_1" subNoOrgMeta (by decide)

/-! ## C10: frame effect of subscription deletion -/

/-- C10.  Applying a `customer.subscription.deleted` event clears exactly
`stripeSubscriptionId`, `stripeCurrentPeriodEnd` and `planId` and sets
`subscriptionStatus := INACTIVE`, leaving `stripeCustomerId` and all
non-billing fields unchanged; the checkout endpoint's already-subscribed guard
(`stripeCustomerId && stripeSubscriptionId`) then no longer fires, so an admin
of the organization can start a new checkout for any payment-configured
plan. -/
theorem subscription_deleted_frame (w : StripeWorld) (eid : String) (db : BillingDB)
    (sub : StripeSubscription) (o : Organization)
    (hmeta : sub.metaOrganizationId = some o.id) (hne : o.id ≠ "")
    (hfind : db.orgs.find? (fun x => x.id == o.id) = some o) :
    (webhookPOST w ⟨⟨eid, .subDeleted sub⟩, true⟩ db).1 = .received ∧
    ((webhookPOST w ⟨⟨eid, .subDeleted sub⟩, true⟩ db).2).orgs.find?
        (fun x => x.id == o.id) = some (clearBilling o) ∧
    (∀ pl : Plan, ∀ u : User, strTruthy pl.stripePriceId = true →
      u.organizationId = some o.id → u.isAdmin = true →
      checkoutPOST ⟨[clearBilling o], [pl], [u], [], []⟩ u.id pl.id = .success 200) := by
  have htr : strTruthy sub.metaOrganizationId = true := by
    rw [hmeta]; exact strTruthy_some_ne hne
  have hgetD : sub.metaOrganizationId.getD "" = o.id := by rw [hmeta]; rfl
  have hupd : updateOrg db o.id (fun x =>
      { x with stripeSubscriptionId := none, stripeCurrentPeriodEnd := none,
               subscriptionStatus := SubscriptionStatus.INACTIVE, planId := none }) =
      some { db with orgs := db.orgs.map (fun x =>
        if x.id == o.id then
          { x with stripeSubscriptionId := none, stripeCurrentPeriodEnd := none,
                   subscriptionStatus := SubscriptionStatus.INACTIVE, planId := none }
        else x) } := by
    simp [updateOrg, hfind]
  refine ⟨?_, ?_, ?_⟩
  · simp [webhookPOST, htr, hgetD, hupd]
  · have h2 : ((webhookPOST w ⟨⟨eid, .subDeleted sub⟩, true⟩ db).2).orgs =
        db.orgs.map (fun x => if x.id == o.id then
          { x with stripeSubscriptionId := none, stripeCurrentPeriodEnd := none,
                   subscriptionStatus := SubscriptionStatus.INACTIVE, planId := none }
          else x) := by
      simp [webhookPOST, htr, hgetD, hupd]
    rw [h2, find?_map_pres _ _ (fun x => by
        by_cases hx : (x.id == o.id) = true <;> simp [hx]) db.orgs, hfind]
    simp [clearBilling]
  · intro pl u hpl hu hadmin
    have hso : strTruthy (some o.id) = true := strTruthy_some_ne hne
    have hu' : strTruthy u.organizationId = true := by rw [hu]; exact hso
    simp [checkoutPOST, findUserById, findOrg, clearBilling, hpl, hu, hu', hadmin,
      hso, strTruthy_none]

/-- Witness for C10 at a concrete organization, plan and user. -/
theorem subscription_deleted_frame_witness :
    (webhookPOST ⟨[]⟩
        ⟨⟨"evt_1", .subDeleted { subNoOrgMeta with metaOrganizationId := some "org1" }⟩, true⟩
        ⟨[{ id := "org1", name := "Acme", stripeCustomerId := some "cus_1",
            stripeSubscriptionId := some "sub_1", stripeCurrentPeriodEnd := some 9,
            subscriptionStatus := .ACTIVE, planId := some "plan_team" }], []⟩).1 =
      .received := by
  have h := subscription_deleted_frame ⟨[]⟩ "evt_1"
    ⟨[{ id := "org1", name := "Acme", stripeCustomerId := some "cus_1",
        stripeSubscriptionId := some "sub_1", stripeCurrentPeriodEnd := some 9,
        subscriptionStatus := .ACTIVE, planId := some "plan_team" }], []⟩
    { subNoOrgMeta with metaOrganizationId := some "org1" }
    { id := "org1", name := "Acme", stripeCustomerId := some "cus_1",
      stripeSubscriptionId := some "sub_1", stripeCurrentPeriodEnd := some 9,
      subscriptionStatus := .ACTIVE, planId := some "plan_team" }
    (by decide) (by decide) (by decide)
  exact h.1

/-! ## C1: the handler has no idempotency gate -/

theorem updateOrg_webhookEvents {db db' : BillingDB} {i : String}
    {f : Organization → Organization} (h : updateOrg db i f = some db') :
    db'.webhookEvents = db.webhookEvents := by
  unfold updateOrg at h
  split at h
  · rw [← Option.some.inj h]
  · exact absurd h (by simp)

/-- No code path of the webhook handler reads or writes the `webhook_events`
dedup table. -/
theorem webhookPOST_preserves_webhookEvents (w : StripeWorld) (req : WebhookRequest)
    (db : BillingDB) :
    ((webhookPOST w req db).2).webhookEvents = db.webhookEvents := by
  unfold webhookPOST applySubCreatedOrUpdated
  repeat' split
  all_goals try rfl
  all_goals (rename_i heq; exact updateOrg_webhookEvents heq)

/-- C1 (code bug).  The handler never inserts (nor consults) a dedup record:
the `webhook_events` table is unchanged on every code path, and redelivering a
validly signed event with an already-processed event id is re-applied rather
than acknowledged as a no-op — after `evt_1` (subscription updated) and
`evt_2` (subscription deleted) have been applied, a second delivery of the
identical `evt_1` changes the Organization row again. -/
theorem webhook_no_dedup_gate :
    (∀ (w : StripeWorld) (req : WebhookRequest) (db : BillingDB),
      ((webhookPOST w req db).2).webhookEvents = db.webhookEvents) ∧
    ((webhookPOST ⟨[subOrg1]⟩ reqUpdatedEvt1
        ((webhookPOST ⟨[subOrg1]⟩ reqDeletedEvt2
          ((webhookPOST ⟨[subOrg1]⟩ reqUpdatedEvt1 ⟨[org1Free], []⟩).2)).2)).2 ≠
      (webhookPOST ⟨[subOrg1]⟩ reqDeletedEvt2
        ((webhookPOST ⟨[subOrg1]⟩ reqUpdatedEvt1 ⟨[org1Free], []⟩).2)).2) := by
  refine ⟨webhookPOST_preserves_webhookEvents, ?_⟩
  decide

/-! ## C4: payment-succeeded does not upsert -/

/-- C4 counterexample: a validly signed `invoice.payment_succeeded` event for
an organization whose row does not exist is acknowledged without creating or
writing any row — the write does not succeed, so the handler does not use an
upsert. -/
theorem payment_succeeded_no_upsert_counterexample :
    webhookPOST ⟨[subOrg1]⟩
        ⟨⟨"evt_9", .invoicePaymentSucceeded invCycleSub1⟩, true⟩ ⟨[], []⟩ =
      (.received, ⟨[], []⟩) := by
  decide

/-- C4 amended: every apply path uses a plain update requiring the
Organization row to pre-exist.  For `invoice.payment_succeeded` the update is
wrapped in a `try`/`catch` that swallows the failure, so a missing row is
acknowledged with `{received: true}` and no write occurs; for
`customer.subscription.updated` and `.deleted` the failure propagates as a 500
server error. -/
theorem payment_succeeded_plain_update_amended :
    (∀ (w : StripeWorld) (db : BillingDB) (eid sid : String) (inv : StripeInvoice)
      (sub : StripeSubscription),
      getSubscriptionIdFromInvoice w inv = some sid →
      w.retrieve sid = some sub →
      inv.billingReason = "subscription_cycle" →
      db.orgs.find? (fun o => o.id == sub.metaOrganizationId.getD "") = none →
      webhookPOST w ⟨⟨eid, .invoicePaymentSucceeded inv⟩, true⟩ db = (.received, db)) ∧
    (∀ (w : StripeWorld) (db : BillingDB) (eid : String) (sub : StripeSubscription)
      (pe : Int),
      subscriptionMetadataValid sub = true →
      sub.itemsPeriodEnds.head? = some pe →
      db.orgs.find? (fun o => o.id == sub.metaOrganizationId.getD "") = none →
      webhookPOST w ⟨⟨eid, .subUpdated sub⟩, true⟩ db =
        (.error 500 "Webhook handler failed", db)) ∧
    (∀ (w : StripeWorld) (db : BillingDB) (eid : String) (sub : StripeSubscription),
      strTruthy sub.metaOrganizationId = true →
      db.orgs.find? (fun o => o.id == sub.metaOrganizationId.getD "") = none →
      webhookPOST w ⟨⟨eid, .subDeleted sub⟩, true⟩ db =
        (.error 500 "Webhook handler failed", db)) := by
  refine ⟨?_, ?_, ?_⟩
  · intro w db eid sid inv sub hsid hret hreason hnone
    have hupd : ∀ f, updateOrg db (sub.metaOrganizationId.getD "") f = none := by
      intro f; simp [updateOrg, hnone]
    cases htr : strTruthy sub.metaOrganizationId <;>
      cases hhead : sub.itemsPeriodEnds.head? <;>
        simp [webhookPOST, hsid, hret, hreason, htr, hhead, hupd]
  · intro w db eid sub pe hmeta hhead hnone
    have hupd : ∀ f, updateOrg db (sub.metaOrganizationId.getD "") f = none := by
      intro f; simp [updateOrg, hnone]
    simp [webhookPOST, applySubCreatedOrUpdated, hmeta, hhead, hupd]
  · intro w db eid sub htr hnone
    have hupd : ∀ f, updateOrg db (sub.metaOrganizationId.getD "") f = none := by
      intro f; simp [updateOrg, hnone]
    simp [webhookPOST, htr, hupd]

/-- Witness for C4 amended: the three conjuncts at a concrete missing-row
store. -/
theorem payment_succeeded_plain_update_amended_witness :
    webhookPOST ⟨[subOrg1]⟩
        ⟨⟨"evt_9", .invoicePaymentSucceeded invCycleSub1⟩, true⟩ ⟨[], []⟩ =
      (.received, ⟨[], []⟩) ∧
    webhookPOST ⟨[subOrg1]⟩ ⟨⟨"evt_9", .subUpdated subOrg1⟩, true⟩ ⟨[], []⟩ =
      (.error 500 "Webhook handler failed", ⟨[], []⟩) ∧
    webhookPOST ⟨[subOrg1]⟩ ⟨⟨"evt_9", .subDeleted subOrg1⟩, true⟩ ⟨[], []⟩ =
      (.error 500 "Webhook handler failed", ⟨[], []⟩) :=
  ⟨payment_succeeded_plain_update_amended.1 ⟨[subOrg1]⟩ ⟨[], []⟩ "evt_9" "sub_1"
      invCycleSub1 subOrg1 (by decide) (by decide) (by decide) (by decide),
   payment_succeeded_plain_update_amended.2.1 ⟨[subOrg1]⟩ ⟨[], []⟩ "evt_9" subOrg1 7
      (by decide) (by decide) (by decide),
   payment_succeeded_plain_update_amended.2.2 ⟨[subOrg1]⟩ ⟨[], []⟩ "evt_9" subOrg1
      (by decide) (by decide)⟩

/-! ## C5: metadata validation -/

/-- C5 counterexample: a validly signed `invoice.payment_succeeded` event whose
resolved subscription metadata lacks `organizationId` is silently skipped and
acknowledged with `{received: true}` — no validation error, no state change —
contradicting "processing fails with a validation error ... never silently
skips the apply step". -/
theorem metadata_silent_skip_counterexample :
    webhookPOST ⟨[subNoOrgMeta]⟩
        ⟨⟨"evt_5", .invoicePaymentSucceeded invCycleSub1⟩, true⟩ ⟨[org1Free], []⟩ =
      (.received, ⟨[org1Free], []⟩) := by
  decide

/-- C5 amended: metadata validation is per event kind.  `organizationId` is
required (400 `ValidationError`) for checkout-completed (together with
`userId` and `planId`), subscription-created/updated and subscription-deleted;
`planId` is optional for subscription-updated (a valid event without it is
applied); and for `invoice.payment_succeeded` a missing `organizationId` on
the resolved subscription is silently skipped and acknowledged as
`{received: true}` rather than failing. -/
theorem metadata_validation_amended :
    (∀ (w : StripeWorld) (db : BillingDB) (eid : String) (session : CheckoutSession),
      checkoutMetadataValid session = false →
      webhookPOST w ⟨⟨eid, .checkoutCompleted session⟩, true⟩ db =
        (.error 400 "Invalid session metadata", db)) ∧
    (∀ (w : StripeWorld) (db : BillingDB) (eid : String) (sub : StripeSubscription),
      subscriptionMetadataValid sub = false →
      webhookPOST w ⟨⟨eid, .subCreated sub⟩, true⟩ db =
        (.error 400 "Invalid subscription metadata", db) ∧
      webhookPOST w ⟨⟨eid, .subUpdated sub⟩, true⟩ db =
        (.error 400 "Invalid subscription metadata", db)) ∧
    (∀ (w : StripeWorld) (db : BillingDB) (eid : String) (sub : StripeSubscription),
      strTruthy sub.metaOrganizationId = false →
      webhookPOST w ⟨⟨eid, .subDeleted sub⟩, true⟩ db =
        (.error 400 "Missing organizationId", db)) ∧
    (∀ (w : StripeWorld) (db : BillingDB) (eid sid : String) (inv : StripeInvoice)
      (sub : StripeSubscription),
      getSubscriptionIdFromInvoice w inv = some sid →
      w.retrieve sid = some sub →
      strTruthy sub.metaOrganizationId = false →
      webhookPOST w ⟨⟨eid, .invoicePaymentSucceeded inv⟩, true⟩ db = (.received, db)) ∧
    (∀ (w : StripeWorld) (db : BillingDB) (eid : String) (sub : StripeSubscription)
      (pe : Int) (o : Organization),
      sub.metaPlanId = none →
      subscriptionMetadataValid sub = true →
      sub.itemsPeriodEnds.head? = some pe →
      db.orgs.find? (fun x => x.id == sub.metaOrganizationId.getD "") = some o →
      (webhookPOST w ⟨⟨eid, .subUpdated sub⟩, true⟩ db).1 = .received) := by
  refine ⟨?_, ?_, ?_, ?_, ?_⟩
  · intro w db eid session h
    simp [webhookPOST, h]
  · intro w db eid sub h
    constructor <;> simp [webhookPOST, applySubCreatedOrUpdated, h]
  · intro w db eid sub h
    simp [webhookPOST, h]
  · intro w db eid sid inv sub hsid hret htr
    cases hreason : inv.billingReason == "subscription_cycle" <;>
      simp [webhookPOST, hsid, hret, htr, hreason]
  · intro w db eid sub pe o hplan hmeta hhead hfind
    have hupd : updateOrg db (sub.metaOrganizationId.getD "")
        (fun x => { x with
          stripeSubscriptionId := some sub.id
          stripeCurrentPeriodEnd := some (pe * 1000)
          subscriptionStatus := mapStripeStatus sub.status
          planId := if strTruthy sub.metaPlanId then sub.metaPlanId else x.planId }) =
        some { db with orgs := db.orgs.map (fun x =>
          if x.id == sub.metaOrganizationId.getD "" then
            { x with
              stripeSubscriptionId := some sub.id
              stripeCurrentPeriodEnd := some (pe * 1000)
              subscriptionStatus := mapStripeStatus sub.status
              planId := if strTruthy sub.metaPlanId then sub.metaPlanId else x.planId }
          else x) } := by
      simp [updateOrg, hfind]
    simp [webhookPOST, applySubCreatedOrUpdated, hmeta, hhead, hupd]

/-- Witness for C5 amended: all five conjuncts at concrete events. -/
theorem metadata_validation_amended_witness :
    webhookPOST ⟨[]⟩ ⟨⟨"evt_a", .checkoutCompleted ⟨none, none, none, none⟩⟩, true⟩
        ⟨[], []⟩ = (.error 400 "Invalid session metadata", ⟨[], []⟩) ∧
    webhookPOST ⟨[]⟩ ⟨⟨"evt_b", .subUpdated subNoOrgMeta⟩, true⟩ ⟨[], []⟩ =
      (.error 400 "Invalid subscription metadata", ⟨[], []⟩) ∧
    webhookPOST ⟨[]⟩ ⟨⟨"evt_c", .subDeleted subNoOrgMeta⟩, true⟩ ⟨[], []⟩ =
      (.error 400 "Missing organizationId", ⟨[], []⟩) ∧
    webhookPOST ⟨[subNoOrgMeta]⟩
        ⟨⟨"evt_d", .invoicePaymentSucceeded invCycleSub1⟩, true⟩ ⟨[org1Free], []⟩ =
      (.received, ⟨[org1Free], []⟩) ∧
    (webhookPOST ⟨[]⟩
        ⟨⟨"evt_e", .subUpdated { subOrg1 with metaPlanId := none }⟩, true⟩
        ⟨[org1Free], []⟩).1 = .received :=
  ⟨metadata_validation_amended.1 ⟨[]⟩ ⟨[], []⟩ "evt_a" ⟨none, none, none, none⟩
      (by decide),
   (metadata_validation_amended.2.1 ⟨[]⟩ ⟨[], []⟩ "evt_b" subNoOrgMeta (by decide)).2,
   metadata_validation_amended.2.2.1 ⟨[]⟩ ⟨[], []⟩ "evt_c" subNoOrgMeta (by decide),
   metadata_validation_amended.2.2.2.1 ⟨[subNoOrgMeta]⟩ ⟨[org1Free], []⟩ "evt_d"
      "sub_1" invCycleSub1 subNoOrgMeta (by decide) (by decide) (by decide),
   metadata_validation_amended.2.2.2.2 ⟨[]⟩ ⟨[org1Free], []⟩ "evt_e"
      { subOrg1 with metaPlanId := none } 7 org1Free (by decide) (by decide)
      (by decide) (by decide)⟩

/-! ## C9: expired tokens -/

/-- C9 counterexample: a token whose `expiresAt` is in the past but which is
also deactivated fails with the deactivation error, not the expiry-specific
error, in both redemption variants. -/
theorem expired_token_counterexample :
    joinOrganization ⟨[org1Free], [], [], [], [inviteExpiredInactive]⟩ 0 "u1" "tok" =
      .error "This invitation link has been deactivated" ∧
    autoCreateAccountAndJoin ⟨[org1Free], [], [], [], [inviteExpiredInactive]⟩ 0
        "tok" "a@b.c" "u9" = .error "Invalid or inactive invitation link" ∧
    joinOrganization ⟨[org1Free], [], [], [], [inviteExpiredInactive]⟩ 0 "u1" "tok" ≠
      .error "This invitation link has expired" ∧
    autoCreateAccountAndJoin ⟨[org1Free], [], [], [], [inviteExpiredInactive]⟩ 0
        "tok" "a@b.c" "u9" ≠ .error "This invitation link has expired" := by
  decide

/-- C9 amended: for every *active* self-serve invite token whose `expiresAt`
is set and lies in the past, any redemption attempt — in both variants —
fails with the expiry-specific error, regardless of the token's usage fields
(no hypothesis constrains `usageLimit` or `usageCount`); a deactivated token
fails with the deactivation error instead. -/
theorem expired_token_amended (db : AppDB) (now e : Int)
    (token userId email newUserId : String) (invite : SelfServeInvite)
    (hfind : findSelfInvite db token = some invite)
    (hactive : invite.isActive = true)
    (hexp : invite.expiresAt = some e) (hlt : e < now) :
    joinOrganization db now userId token = .error "This invitation link has expired" ∧
    autoCreateAccountAndJoin db now token email newUserId =
      .error "This invitation link has expired" := by
  have hcond : (match invite.expiresAt with
      | some x => decide (x < now)
      | none => false) = true := by
    rw [hexp]; simpa using hlt
  constructor <;> simp [joinOrganization, autoCreateAccountAndJoin, hfind, hactive, hcond]

/-- Witness for C9 amended: an active expired token with unlimited usage. -/
theorem expired_token_amended_witness :
    joinOrganization
        ⟨[org1Free], [], [], [],
         [{ inviteExpiredInactive with isActive := true, usageLimit := none }]⟩ 0
        "u1" "tok" = .error "This invitation link has expired" :=
  (expired_token_amended
    ⟨[org1Free], [], [], [],
     [{ inviteExpiredInactive with isActive := true, usageLimit := none }]⟩ 0 (-1)
    "tok" "u1" "a@b.c" "u9"
    { inviteExpiredInactive with isActive := true, usageLimit := none }
    (by decide) (by decide) (by decide) (by decide)).1

/-! ## C3: already-a-member redemption -/

/-- C3 counterexample: in the authenticated-user variant, a user who already
belongs to the organization the token targets does not get a no-op success —
the transaction throws "You are already a member of this organization". -/
theorem same_org_join_counterexample :
    joinOrganization ⟨[org1Free], [], [memberU1], [], [inviteOrg1]⟩ 0 "u1" "tok" =
      .error "You are already a member of this organization" := by
  decide

/-- C3 amended: only the anonymous email variant treats "already a member of
this same organization" as a no-op success (no user row changed, no usage
increment); the authenticated variant rejects it with an already-a-member
error (the transaction rolls back, so the database is also unchanged).  A user
belonging to a *different* organization is rejected in both variants. -/
theorem same_org_redemption_amended (db : AppDB) (now : Int)
    (token email userId newUserId : String) (invite : SelfServeInvite)
    (org : Organization) (user : User)
    (hfind : findSelfInvite db token = some invite)
    (hactive : invite.isActive = true)
    (hexp : (match invite.expiresAt with
        | some x => decide (x < now)
        | none => false) = false)
    (husage : (natTruthy invite.usageLimit &&
        decide (invite.usageCount ≥ invite.usageLimit.getD 0)) = false)
    (horg : findOrg db invite.organizationId = some org)
    (hcap : freePlanCapacityExceeded db org = false)
    (hne : invite.organizationId ≠ "") :
    ((findUserByEmail db email = some user ∧
        user.organizationId = some invite.organizationId) →
      autoCreateAccountAndJoin db now token email newUserId = .ok db) ∧
    ((findUserById db userId = some user ∧
        user.organizationId = some invite.organizationId) →
      joinOrganization db now userId token =
        .error "You are already a member of this organization") ∧
    (∀ other : String, other ≠ invite.organizationId → other ≠ "" →
      (findUserById db userId = some user ∧ user.organizationId = some other →
        joinOrganization db now userId token =
          .error "You are already a member of another organization. Please leave your current organization first.") ∧
      (findUserByEmail db email = some user ∧ user.organizationId = some other →
        autoCreateAccountAndJoin db now token email newUserId =
          .error "You are already a member of another organization")) := by
  refine ⟨?_, ?_, ?_⟩
  · rintro ⟨hu, hsame⟩
    have htr : strTruthy (some invite.organizationId) = true := strTruthy_some_ne hne
    simp [autoCreateAccountAndJoin, hfind, hactive, hexp, husage, horg, hcap, hu,
      htr, hsame]
  · rintro ⟨hu, hsame⟩
    simp [joinOrganization, hfind, hactive, hexp, husage, horg, hcap, hu, hsame]
  · intro other hdiff hne'
    constructor
    · rintro ⟨hu, hother⟩
      have hneq : (user.organizationId == some invite.organizationId) = false := by
        rw [hother]; simpa using fun h => hdiff h
      have htr : strTruthy user.organizationId = true := by
        rw [hother]; exact strTruthy_some_ne hne'
      simp [joinOrganization, hfind, hactive, hexp, husage, horg, hcap, hu, hneq, htr]
    · rintro ⟨hu, hother⟩
      have hneq : (user.organizationId == some invite.organizationId) = false := by
        rw [hother]; simpa using fun h => hdiff h
      have htr : strTruthy user.organizationId = true := by
        rw [hother]; exact strTruthy_some_ne hne'
      simp [autoCreateAccountAndJoin, hfind, hactive, hexp, husage, horg, hcap, hu,
        hneq, htr]

/-- Witness for C3 amended: the anonymous no-op at a concrete member. -/
theorem same_org_redemption_amended_witness :
    autoCreateAccountAndJoin ⟨[org1Free], [], [memberU1], [], [inviteOrg1]⟩ 0 "tok"
        "u1@example.com" "u9" = .ok ⟨[org1Free], [], [memberU1], [], [inviteOrg1]⟩ :=
  (same_org_redemption_amended ⟨[org1Free], [], [memberU1], [], [inviteOrg1]⟩ 0
      "tok" "u1@example.com" "u1" "u9" inviteOrg1 org1Free memberU1
      (by decide) (by decide) (by decide) (by decide) (by decide) (by decide)
      (by decide)).1 ⟨by decide, by decide⟩

/-! ## C8: free-tier capacity check -/

/-- C8.  With no plan set (free tier), both per-email invite creation and
self-serve invite redemption compute `activeMembers + pendingInvites + 1` and
fail with the capacity error exactly when that total exceeds the free-tier cap
of 3; with a paid plan set the capacity check is not applied and the same
operation succeeds (no hypothesis constrains the member or invite counts in
the paid-plan conjuncts). -/
theorem free_tier_capacity_check :
    (∀ (db : AppDB) (actorId email oid : String) (user : User) (org : Organization),
      findUserById db actorId = some user →
      user.organizationId = some oid → oid ≠ "" →
      findOrg db oid = some org →
      user.isAdmin = true →
      orgPlan db org = none →
      ((invitePOST db actorId email).1 = .failure 400 freePlanLimitMsg ↔
        activeMembers db org.id + pendingInvites db org.id + 1 > FREE_PLAN_MEMBER_LIMIT)) ∧
    (∀ (db : AppDB) (now : Int) (userId token : String) (invite : SelfServeInvite)
      (org : Organization),
      findSelfInvite db token = some invite →
      invite.isActive = true →
      (match invite.expiresAt with
        | some x => decide (x < now)
        | none => false) = false →
      (natTruthy invite.usageLimit &&
        decide (invite.usageCount ≥ invite.usageLimit.getD 0)) = false →
      findOrg db invite.organizationId = some org →
      orgPlan db org = none →
      (joinOrganization db now userId token = .error freePlanLimitMsg ↔
        activeMembers db org.id + pendingInvites db org.id + 1 > FREE_PLAN_MEMBER_LIMIT)) ∧
    (∀ (db : AppDB) (actorId email oid : String) (user : User) (org : Organization)
      (plan : Plan),
      findUserById db actorId = some user →
      user.organizationId = some oid → oid ≠ "" →
      findOrg db oid = some org →
      user.isAdmin = true →
      orgPlan db org = some plan →
      existingUserSameOrg db email user.organizationId = false →
      existingInvitePending db email org.id = false →
      (invitePOST db actorId email).1 = .success 201) ∧
    (∀ (db : AppDB) (now : Int) (userId token : String) (invite : SelfServeInvite)
      (org : Organization) (plan : Plan) (user : User),
      findSelfInvite db token = some invite →
      invite.isActive = true →
      (match invite.expiresAt with
        | some x => decide (x < now)
        | none => false) = false →
      (natTruthy invite.usageLimit &&
        decide (invite.usageCount ≥ invite.usageLimit.getD 0)) = false →
      findOrg db invite.organizationId = some org →
      orgPlan db org = some plan →
      findUserById db userId = some user →
      user.organizationId = none →
      (natTruthy invite.usageLimit &&
        decide (invite.usageCount + 1 > invite.usageLimit.getD 0)) = false →
      joinOrganization db now userId token =
        .ok (setUserOrg (bumpUsage db token) userId invite.organizationId)) := by
  refine ⟨?_, ?_, ?_, ?_⟩
  · intro db actorId email oid user org hu hoid hne horg hadmin hplan
    have hso : strTruthy (some oid) = true := strTruthy_some_ne hne
    by_cases h : activeMembers db org.id + pendingInvites db org.id + 1 >
        FREE_PLAN_MEMBER_LIMIT
    · have hc : freePlanCapacityExceeded db org = true := by
        simp [freePlanCapacityExceeded, hplan, h]
      apply iff_of_true ?_ h
      simp [invitePOST, hu, hoid, hso, horg, hadmin, hc]
    · have hc : freePlanCapacityExceeded db org = false := by
        simp [freePlanCapacityExceeded, hplan, h]
      apply iff_of_false ?_ h
      intro hres
      revert hres
      cases hA : existingUserSameOrg db email (some oid) <;>
        cases hB : existingInvitePending db email org.id <;>
          simp [invitePOST, hu, hoid, hso, horg, hadmin, hc, hA, hB, freePlanLimitMsg]
  · intro db now userId token invite org hfind hactive hexp husage horg hplan
    by_cases h : activeMembers db org.id + pendingInvites db org.id + 1 >
        FREE_PLAN_MEMBER_LIMIT
    · have hc : freePlanCapacityExceeded db org = true := by
        simp [freePlanCapacityExceeded, hplan, h]
      apply iff_of_true ?_ h
      simp [joinOrganization, hfind, hactive, hexp, husage, horg, hc]
    · have hc : freePlanCapacityExceeded db org = false := by
        simp [freePlanCapacityExceeded, hplan, h]
      apply iff_of_false ?_ h
      intro hres
      revert hres
      cases huser : findUserById db userId <;>
        simp only [joinOrganization, hfind, hactive, hexp, husage, horg, hc, huser,
          Bool.not_true, Bool.false_eq_true, if_false, if_true] <;>
        split <;> (try split) <;> (try split) <;>
          simp [freePlanLimitMsg]
  · intro db actorId email oid user org plan hu hoid hne horg hadmin hplan hA hB
    have hso : strTruthy (some oid) = true := strTruthy_some_ne hne
    have hc : freePlanCapacityExceeded db org = false := by
      simp [freePlanCapacityExceeded, hplan]
    rw [hoid] at hA
    simp [invitePOST, hu, hoid, hso, horg, hadmin, hc, hA, hB]
  · intro db now userId token invite org plan user hfind hactive hexp husage horg
      hplan huser huorg hrecheck
    have hc : freePlanCapacityExceeded db org = false := by
      simp [freePlanCapacityExceeded, hplan]
    simp [joinOrganization, hfind, hactive, hexp, husage, horg, hc, huser, huorg,
      strTruthy, hrecheck]

/-- Witness for C8: a free-tier organization with 2 members and 1 pending
invite rejects a third invite (total 4 > 3); the same store with a paid plan
accepts it. -/
theorem free_tier_capacity_check_witness :
    (invitePOST
        ⟨[org1Free], [],
         [{ memberU1 with isAdmin := true },
          { id := "u2", email := "u2@example.com", emailVerified := true,
            organizationId := some "org1", isAdmin := false }],
         [{ email := "p1@example.com", organizationId := "org1", invitedBy := "u1",
            status := .PENDING }], []⟩
        "u1" "new@example.com").1 = .failure 400 freePlanLimitMsg ∧
    (invitePOST
        ⟨[{ org1Free with planId := some "plan_team" }],
         [{ id := "plan_team", name := "Team", stripePriceId := some "price_1" }],
         [{ memberU1 with isAdmin := true },
          { id := "u2", email := "u2@example.com", emailVerified := true,
            organizationId := some "org1", isAdmin := false }],
         [{ email := "p1@example.com", organizationId := "org1", invitedBy := "u1",
            status := .PENDING }], []⟩
        "u1" "new@example.com").1 = .success 201 := by
  constructor
  · exact (free_tier_capacity_check.1
      ⟨[org1Free], [],
       [{ memberU1 with isAdmin := true },
        { id := "u2", email := "u2@example.com", emailVerified := true,
          organizationId := some "org1", isAdmin := false }],
       [{ email := "p1@example.com", organizationId := "org1", invitedBy := "u1",
          status := .PENDING }], []⟩
      "u1" "new@example.com" "org1" { memberU1 with isAdmin := true } org1Free
      (by decide) (by decide) (by decide) (by decide) (by decide) (by decide)).mpr
      (by decide)
  · exact free_tier_capacity_check.2.2.1
      ⟨[{ org1Free with planId := some "plan_team" }],
       [{ id := "plan_team", name := "Team", stripePriceId := some "price_1" }],
       [{ memberU1 with isAdmin := true },
        { id := "u2", email := "u2@example.com", emailVerified := true,
          organizationId := some "org1", isAdmin := false }],
       [{ email := "p1@example.com", organizationId := "org1", invitedBy := "u1",
          status := .PENDING }], []⟩
      "u1" "new@example.com" "org1" { memberU1 with isAdmin := true }
      { org1Free with planId := some "plan_team" }
      { id := "plan_team", name := "Team", stripePriceId := some "price_1" }
      (by decide) (by decide) (by decide) (by decide) (by decide) (by decide)
      (by decide) (by decide)

/-! ## C2: usage-limit bound under serialized redemption -/

/-- Induction along a serialized history: the token keeps its positive limit
`l`, its count never exceeds `l` (when it started at or below `l`), and the
committed increments account exactly for the count's growth. -/
theorem runAttempts_usage (tok : String) (l : Nat) (hl1 : 1 ≤ l)
    (as : List RedemptionAttempt) :
    ∀ (db : AppDB) (i : SelfServeInvite),
      findSelfInvite db tok = some i → i.usageLimit = some l → i.usageCount ≤ l →
      ∃ i', findSelfInvite (runAttempts db as) tok = some i' ∧
        i'.usageLimit = some l ∧ i'.usageCount ≤ l ∧
        i.usageCount + incSuccessCount db tok as = i'.usageCount := by
  induction as with
  | nil =>
    intro db i hf hl hc
    exact ⟨i, hf, hl, hc, by simp [incSuccessCount, runAttempts]⟩
  | cons a rest ih =>
    intro db i hf hl hc
    obtain ⟨i1, hf1, hl1', hcase⟩ := applyAttempt_usage db a tok i l hf hl hl1
    have hc1 : i1.usageCount ≤ l := by
      rcases hcase with h | ⟨h, hlt⟩ <;> omega
    obtain ⟨i', hf', hl'', hc', hsum⟩ := ih (applyAttempt db a) i1 hf1 hl1' hc1
    refine ⟨i', by simpa [runAttempts] using hf', hl'', hc', ?_⟩
    have hind : tokenUsageCount (applyAttempt db a) tok = i1.usageCount := by
      simp [tokenUsageCount, hf1]
    have hdb : tokenUsageCount db tok = i.usageCount := by
      simp [tokenUsageCount, hf]
    rcases hcase with h | ⟨h, hlt⟩
    · have hno : ¬(tokenUsageCount (applyAttempt db a) tok = tokenUsageCount db tok + 1) := by
        rw [hind, hdb]; omega
      rw [incSuccessCount, if_neg hno]
      omega
    · have hyes : tokenUsageCount (applyAttempt db a) tok = tokenUsageCount db tok + 1 := by
        rw [hind, hdb]; omega
      rw [incSuccessCount, if_pos hyes]
      omega

/-- C2 counterexample: for a token with `usageLimit` set to `N = 0` (a set
value, but falsy in JavaScript), a redemption succeeds — more than `N`
successes — and the resulting observable state has `usageCount = 1 >
usageLimit = 0`, violating the claimed invariant. -/
theorem usage_limit_zero_counterexample :
    autoCreateAccountAndJoin ⟨[org1Free], [], [], [], [inviteLimit0]⟩ 0 "tok"
        "new@example.com" "u9" =
      .ok ⟨[org1Free], [],
           [{ id := "u9", email := "new@example.com", emailVerified := true,
              organizationId := some "org1", isAdmin := false }], [],
           [{ inviteLimit0 with usageCount := 1 }]⟩ ∧
    ({ inviteLimit0 with usageCount := 1 }).usageCount >
      ({ inviteLimit0 with usageCount := 1 }).usageLimit.getD 0 := by
  constructor
  · decide
  · decide

/-- C2 amended: for a token with `usageLimit = N ≥ 1` (a `usageLimit` of `0`
is falsy and disables the checks), over every serialized history of concurrent
redemption transactions: whenever the token starts with `usageCount ≤ N`, the
observable `usageCount` never exceeds `N` — each member-attaching redemption
increments inside its transaction after a pre-check `usageCount < N`, with the
post-increment re-check rolled back on failure — and the number of
member-attaching successful redemptions in the history is exactly the count's
growth, hence at most `N - usageCount₀` (already-a-member no-op successes do
not increment). -/
theorem usage_limit_bound_amended (db : AppDB) (tok : String) (l : Nat)
    (i : SelfServeInvite) (as : List RedemptionAttempt)
    (hf : findSelfInvite db tok = some i) (hl : i.usageLimit = some l)
    (hl1 : 1 ≤ l) (hc : i.usageCount ≤ l) :
    tokenUsageCount (runAttempts db as) tok ≤ l ∧
    tokenUsageCount db tok + incSuccessCount db tok as =
      tokenUsageCount (runAttempts db as) tok ∧
    incSuccessCount db tok as ≤ l - tokenUsageCount db tok := by
  obtain ⟨i', hf', hl', hc', hsum⟩ := runAttempts_usage tok l hl1 as db i hf hl hc
  have h1 : tokenUsageCount (runAttempts db as) tok = i'.usageCount := by
    simp [tokenUsageCount, hf']
  have h2 : tokenUsageCount db tok = i.usageCount := by
    simp [tokenUsageCount, hf]
  refine ⟨by omega, by omega, by omega⟩

/-- Witness for C2 amended: a limit-1 token, two serialized anonymous
redemptions racing for the last slot — the final count is 1 and exactly one
attempt committed an increment. -/
theorem usage_limit_bound_amended_witness :
    tokenUsageCount
        (runAttempts ⟨[org1Free], [], [], [], [{ inviteLimit0 with usageLimit := some 1 }]⟩
          [.anonJoin 0 "tok" "a@example.com" "u8", .anonJoin 0 "tok" "b@example.com" "u9"])
        "tok" ≤ 1 ∧
    tokenUsageCount ⟨[org1Free], [], [], [], [{ inviteLimit0 with usageLimit := some 1 }]⟩
        "tok" +
      incSuccessCount ⟨[org1Free], [], [], [], [{ inviteLimit0 with usageLimit := some 1 }]⟩
        "tok"
        [.anonJoin 0 "tok" "a@example.com" "u8", .anonJoin 0 "tok" "b@example.com" "u9"] =
      tokenUsageCount
        (runAttempts ⟨[org1Free], [], [], [], [{ inviteLimit0 with usageLimit := some 1 }]⟩
          [.anonJoin 0 "tok" "a@example.com" "u8", .anonJoin 0 "tok" "b@example.com" "u9"])
        "tok" ∧
    incSuccessCount ⟨[org1Free], [], [], [], [{ inviteLimit0 with usageLimit := some 1 }]⟩
        "tok"
        [.anonJoin 0 "tok" "a@example.com" "u8", .anonJoin 0 "tok" "b@example.com" "u9"] ≤
      1 - tokenUsageCount ⟨[org1Free], [], [], [], [{ inviteLimit0 with usageLimit := some 1 }]⟩
        "tok" :=
  usage_limit_bound_amended
    ⟨[org1Free], [], [], [], [{ inviteLimit0 with usageLimit := some 1 }]⟩ "tok" 1
    { inviteLimit0 with usageLimit := some 1 }
    [.anonJoin 0 "tok" "a@example.com" "u8", .anonJoin 0 "tok" "b@example.com" "u9"]
    (by decide) (by decide) (by decide) (by decide)

end Gumboard
